import Mathlib

/-
Verification of the FlowStack workflow core: the graph model, the structural
validator (backend/validator.py) and the execution engine
(backend/orchestrator.py).  The Python source is embedded shallowly:

* a node dict `{"id": ..., "type": ..., "data": {...}}` becomes `Node`,
  where `data : Option NodeData` models the possible absence of the
  `"data"` key (accessing a missing key raises `KeyError`);
* the context payload threaded through execution is either a plain string
  or the structured pair produced by the KnowledgeBase handler;
* the three external collaborators (vector search, LLM client, web search)
  are oracle functions supplied as a `Collab` record — the orchestrator
  only threads values through them;
* Python exceptions that escape `run_workflow` are modelled with
  `Except PyExn`; the unbounded `while` loop is modelled with explicit
  fuel, `none` meaning the loop was still running after `fuel` iterations.

Side-effecting `print` calls in the source are omitted: they do not affect
the returned value.
-/

set_option maxRecDepth 4000

namespace FlowStack

/-- Per-node free-form configuration (the `"data"` mapping of a node).
Only the keys actually read by the orchestrator are modelled; `none`
models an absent key (every read of these keys in the source goes through
`dict.get` with a default, so absence never raises). -/
structure NodeData where
  label : Option String := none
  embeddingModel : Option String := none
  embeddingApiKey : Option String := none
  apiKey : Option String := none
  modelName : Option String := none
  temperature : Option ℚ := none
  webSearchTool : Option String := none
  prompt : Option String := none
deriving DecidableEq

/-- A node of the workflow graph: `{"id": string, "type": string,
"data": {...}}`.  `data = none` models a node dict with no `"data"` key. -/
structure Node where
  id : String
  type : String
  data : Option NodeData := none
deriving DecidableEq

/-- An edge `{"source": string, "target": string}`. -/
structure Edge where
  source : String
  target : String
deriving DecidableEq

/-- The workflow structure handed to `validate_workflow` / `run_workflow`:
`{"nodes": [...], "edges": [...]}`. -/
structure Workflow where
  nodes : List Node
  edges : List Edge
deriving DecidableEq

/-! ## Validator (backend/validator.py, `validate_workflow`) -/

/-- `start_nodes` of `validate_workflow`: the nodes of the raw node list
whose id appears as no edge's target
(`[node for node in nodes if node['id'] not in node_ids_with_inputs]`). -/
def start_nodes (nodes : List Node) (edges : List Edge) : List Node :=
  nodes.filter (fun n => ! edges.any (fun e => e.target == n.id))

/-- `end_nodes` of `validate_workflow`: nodes of type `output` with no
outgoing edge. -/
def end_nodes (nodes : List Node) (edges : List Edge) : List Node :=
  nodes.filter (fun n => n.type == "output" && ! edges.any (fun e => e.source == n.id))

/-- `validate_workflow(workflow)` from backend/validator.py, returning the
`(ok, message)` pair.  The rules are checked in source order; the branch on
`len(start_nodes) != 1` is rendered as a match on the filtered list. -/
def validate_workflow (w : Workflow) : Bool × String :=
  let nodes := w.nodes
  let edges := w.edges
  if nodes.isEmpty then (false, "Workflow cannot be empty.")
  else
    match start_nodes nodes edges with
    | [s] =>
      if s.type != "userQuery" then
        (false, "The starting node must be a \x27User Query\x27 node.")
      else if nodes.length > 1 && edges.isEmpty then
        (false, "There are multiple nodes but no connections.")
      else if (end_nodes nodes edges).isEmpty then
        (false, "Workflow must have at least one Output node.")
      else
        (true, "Workflow is valid.")
    | l =>
      (false, "Workflow must have exactly one starting point. Found " ++ toString l.length ++ ".")

/-! ### Validator claims -/

/-- With zero edges the start-node filter keeps every node. -/
theorem start_nodes_no_edges (nodes : List Node) :
    start_nodes nodes [] = nodes := by
  simp [start_nodes]

/-- (C2, counterexample) The claim predicts the message
"There are multiple nodes but no connections." for a two-node, zero-edge
graph; the code instead reports the start-node count, because the
exactly-one-start rule fires first. -/
theorem validate_two_nodes_no_edges_message :
    (validate_workflow ⟨[⟨"1", "userQuery", none⟩, ⟨"2", "output", none⟩], []⟩).2
        ≠ "There are multiple nodes but no connections."
    ∧ validate_workflow ⟨[⟨"1", "userQuery", none⟩, ⟨"2", "output", none⟩], []⟩
        = (false, "Workflow must have exactly one starting point. Found 2.") := by
  constructor
  · decide
  · decide

/-- (C2, amended) For every workflow graph with more than one node and zero
edges, `validate_workflow` returns `false`, but with the message
"Workflow must have exactly one starting point. Found N." (N the node
count): with zero edges every node is a start node, so the
exactly-one-start rule fires first and the dedicated
"There are multiple nodes but no connections." rule is unreachable. -/
theorem validate_multi_node_no_edges (w : Workflow)
    (hn : 1 < w.nodes.length) (he : w.edges = []) :
    validate_workflow w
      = (false, "Workflow must have exactly one starting point. Found "
          ++ toString w.nodes.length ++ ".") := by
  have hne : w.nodes.isEmpty = false := by
    cases h : w.nodes with
    | nil => rw [h] at hn; simp at hn
    | cons a l => simp
  have hs : start_nodes w.nodes w.edges = w.nodes := by
    rw [he, start_nodes_no_edges]
  simp only [validate_workflow, hne, Bool.false_eq_true, if_false, hs]
  cases h : w.nodes with
  | nil => simp
  | cons a l =>
    cases l with
    | nil => rw [h] at hn; simp at hn
    | cons b l2 => simp

/-- (C2, witness) The amended theorem applied to a concrete two-node,
zero-edge graph. -/
theorem validate_multi_node_no_edges_witness :
    validate_workflow ⟨[⟨"1", "userQuery", none⟩, ⟨"2", "output", none⟩], []⟩
      = (false, "Workflow must have exactly one starting point. Found "
          ++ toString ([⟨"1", "userQuery", none⟩, ⟨"2", "output", none⟩] : List Node).length ++ ".") :=
  validate_multi_node_no_edges ⟨[⟨"1", "userQuery", none⟩, ⟨"2", "output", none⟩], []⟩
    (by decide) rfl

/-- (C6) For every non-empty workflow graph in which the number of nodes
whose id appears as no edge's target differs from 1, `validate_workflow`
returns `false` and the message reports the count of such nodes. -/
theorem validate_start_count (w : Workflow)
    (hne : w.nodes ≠ [])
    (hc : (start_nodes w.nodes w.edges).length ≠ 1) :
    validate_workflow w
      = (false, "Workflow must have exactly one starting point. Found "
          ++ toString (start_nodes w.nodes w.edges).length ++ ".") := by
  have hne2 : w.nodes.isEmpty = false := by
    cases h : w.nodes with
    | nil => exact absurd h hne
    | cons a l => simp
  simp only [validate_workflow, hne2, Bool.false_eq_true, if_false]
  cases h : start_nodes w.nodes w.edges with
  | nil => simp
  | cons a l =>
    cases l with
    | nil => rw [h] at hc; simp at hc
    | cons b l2 => simp

/-- (C6, witness) The start-count theorem applied to a concrete graph with
two start nodes. -/
theorem validate_start_count_witness :
    validate_workflow ⟨[⟨"1", "userQuery", none⟩, ⟨"2", "output", none⟩], []⟩
      = (false, "Workflow must have exactly one starting point. Found "
          ++ toString (start_nodes [⟨"1", "userQuery", none⟩, ⟨"2", "output", none⟩] []).length ++ ".") :=
  validate_start_count ⟨[⟨"1", "userQuery", none⟩, ⟨"2", "output", none⟩], []⟩
    (by decide) (by decide)

/-- (C7) The two-node graph `userQuery -> output` validates:
`validate_workflow` returns `(true, "Workflow is valid.")`. -/
theorem validate_example_pair :
    validate_workflow
        ⟨[⟨"1", "userQuery", none⟩, ⟨"2", "output", none⟩], [⟨"1", "2"⟩]⟩
      = (true, "Workflow is valid.") := by
  decide

/-! ## Executor (backend/orchestrator.py, `run_workflow`) -/

/-- The context payload threaded through execution: either a plain Python
string, or the dict `{"query": ..., "context": ...}` built by the
KnowledgeBase handler (whose `"query"` value is itself a payload, since the
handler stores the whole current payload there). -/
inductive Payload where
  | str : String → Payload
  | dict : Payload → String → Payload
deriving DecidableEq

/-- Python `repr` of a payload (used when a dict payload is interpolated
into a prompt by `str.format`; string escaping inside `repr` is not
modelled, no claim depends on it). -/
def Payload.pyRepr : Payload → String
  | Payload.str s => "\x27" ++ s ++ "\x27"
  | Payload.dict q c =>
      "\x7b\x27query\x27: " ++ q.pyRepr ++ ", \x27context\x27: \x27" ++ c ++ "\x27\x7d"

/-- Python `str` of a payload: a string is itself, a dict renders as its
`repr`. -/
def Payload.pyStr : Payload → String
  | Payload.str s => s
  | Payload.dict q c => Payload.pyRepr (Payload.dict q c)

/-- The Python exceptions that can escape `run_workflow`. -/
inductive PyExn where
  | keyError : String → PyExn
  | indexError : PyExn
  | valueError : String → PyExn
deriving DecidableEq

instance : DecidableEq (Except PyExn Payload)
  | Except.ok a, Except.ok b =>
      match decEq a b with
      | isTrue h => isTrue (by rw [h])
      | isFalse h => isFalse (fun hh => h (Except.ok.inj hh))
  | Except.ok a, Except.error e => isFalse (fun hh => Except.noConfusion hh)
  | Except.error e, Except.ok a => isFalse (fun hh => Except.noConfusion hh)
  | Except.error a, Except.error b =>
      match decEq a b with
      | isTrue h => isTrue (by rw [h])
      | isFalse h => isFalse (fun hh => h (Except.error.inj hh))

/-! ### Python `str.format`

`prompt_template.format(query=..., context=..., web_context=...)` is
modelled by `pyFormat`, a character scanner with an explicit state.
Unused keyword arguments are ignored; a field name not among the keyword
arguments raises `KeyError`; an empty field `\x7b\x7d` raises `IndexError`
(no positional arguments are passed); `\x7b\x7b` and `\x7d\x7d` are brace
escapes; stray braces raise `ValueError`.  Conversion/format-spec suffixes
(`!r`, `:spec`) are not modelled; no template in the claims uses them. -/

/-- Scanner state of the `str.format` model: outside any replacement
field, inside a field (with the reversed name read so far), or just after
an unescaped right brace. -/
inductive FmtState where
  | out : FmtState
  | field : List Char → FmtState
  | rbrace : FmtState
deriving DecidableEq

def fmtGo (kw : List (String × String)) : List Char → FmtState → Except PyExn String
  | [], FmtState.out => Except.ok ""
  | [], FmtState.field _ =>
      Except.error (PyExn.valueError "expected \x7d before end of string")
  | [], FmtState.rbrace =>
      Except.error (PyExn.valueError "single \x7d encountered in format string")
  | c :: rest, FmtState.out =>
      if c = '{' then fmtGo kw rest (FmtState.field [])
      else if c = '}' then fmtGo kw rest FmtState.rbrace
      else (fmtGo kw rest FmtState.out).map (fun s => String.mk [c] ++ s)
  | c :: rest, FmtState.rbrace =>
      if c = '}' then (fmtGo kw rest FmtState.out).map (fun s => "\x7d" ++ s)
      else Except.error (PyExn.valueError "single \x7d encountered in format string")
  | c :: rest, FmtState.field acc =>
      if c = '{' then
        if acc = [] then (fmtGo kw rest FmtState.out).map (fun s => "\x7b" ++ s)
        else Except.error (PyExn.valueError "unexpected \x7b in field name")
      else if c = '}' then
        let name := String.mk acc.reverse
        if name = "" then Except.error PyExn.indexError
        else
          match kw.find? (fun p => p.1 == name) with
          | some p => (fmtGo kw rest FmtState.out).map (fun s => p.2 ++ s)
          | none => Except.error (PyExn.keyError name)
      else fmtGo kw rest (FmtState.field (c :: acc))

/-- `template.format(**kw)`. -/
def pyFormat (template : String) (kw : List (String × String)) : Except PyExn String :=
  fmtGo kw template.data FmtState.out

/-- Syntactic check that a template only uses replacement fields drawn from
`keys` (and balanced doubled-brace escapes), mirroring the scanner
structure of `fmtGo`.  When it holds, formatting with any values for those
keys succeeds. -/
def tmplOK (keys : List String) : List Char → FmtState → Bool
  | [], FmtState.out => true
  | [], FmtState.field _ => false
  | [], FmtState.rbrace => false
  | c :: rest, FmtState.out =>
      if c = '{' then tmplOK keys rest (FmtState.field [])
      else if c = '}' then tmplOK keys rest FmtState.rbrace
      else tmplOK keys rest FmtState.out
  | c :: rest, FmtState.rbrace =>
      if c = '}' then tmplOK keys rest FmtState.out
      else false
  | c :: rest, FmtState.field acc =>
      if c = '{' then
        if acc = [] then tmplOK keys rest FmtState.out
        else false
      else if c = '}' then
        let name := String.mk acc.reverse
        if name = "" then false
        else keys.contains name && tmplOK keys rest FmtState.out
      else tmplOK keys rest (FmtState.field (c :: acc))

/-! ### Collaborators -/

/-- The three external collaborators called by the orchestrator, as
oracles.  `search` is `processing.search_in_knowledge_base(stack_id,
current_data, embedding_model, api_key)` — note it receives the whole
current payload, whatever its shape; `llm` is
`llm_handler.generate_response(prompt, api_key, model_name, temperature)`;
`webSearch` is `web_search.perform_search(prompt_input_query)`.  All three
absorb their own failures and return a string (their Python bodies are
wrapped in try/except). -/
structure Collab where
  search : Int → Payload → String → Option String → String
  llm : String → Option String → String → ℚ → String
  webSearch : Payload → String

/-! ### The orchestrator -/

/-- The dict comprehension
`nodes = \x7bnode['id']: node for node in workflow['nodes']\x7d`:
insertion order of first occurrence of each id, later duplicate ids
overwrite the stored node.  Represented as a list of nodes with pairwise
distinct ids. -/
def insertNode (m : List Node) (n : Node) : List Node :=
  if m.any (fun x => x.id == n.id) then
    m.map (fun x => if x.id == n.id then n else x)
  else m ++ [n]

def buildDict (ns : List Node) : List Node :=
  ns.foldl insertNode []

/-- `nodes[i]` on the node dict; `none` models the `KeyError` raised on a
missing key. -/
def dictLookup (m : List Node) (i : String) : Option Node :=
  m.find? (fun n => n.id == i)

/-- The start-node search of `run_workflow`: the first value of the node
dict whose type is `userQuery` and whose id is no edge's target. -/
def findStartId (values : List Node) (edges : List Edge) : Option String :=
  (values.find? (fun n => n.type == "userQuery" && ! edges.any (fun e => e.target == n.id))).map Node.id

/-- The built-in prompt template (the default of
`node_data.get('prompt', ...)` in orchestrator.py). -/
def default_prompt_template : String :=
  "\n                    You are a helpful assistant. Your task is to provide a direct answer to the user\x27s query.\n                    Use the following tools and context to construct your answer.\n                    If context from a PDF document is provided, prioritize it.\n                    If context from a web search is provided, use it for recent information or if the PDF context is insufficient.\n                    If no context is provided, or the context is not relevant, answer using your general knowledge.\n                    Do not explain your own reasoning. Provide only the direct answer.\n\n                    PDF CONTEXT:\n                    {context}\n\n                    WEB SEARCH RESULTS:\n                    {web_context}\n\n                    USER QUERY:\n                    {query}\n                "

/-- One dispatch of the `if/elif` chain on `node_type` in the body of the
`while` loop of `run_workflow`.  Only the LLMEngine branch can raise (via
`str.format`); every other branch, including the final implicit
fall-through for unknown types, succeeds. -/
def handleNode (C : Collab) (stack_id : Int) (query : String)
    (node_type : String) (node_data : NodeData) (current_data : Payload) :
    Except PyExn Payload :=
  if node_type == "userQuery" then
    Except.ok (Payload.str query)
  else if node_type == "knowledgeBase" then
    let embedding_model := node_data.embeddingModel.getD "models/embedding-001"
    let api_key := node_data.embeddingApiKey
    let context := C.search stack_id current_data embedding_model api_key
    Except.ok (Payload.dict current_data context)
  else if node_type == "llmEngine" then
    let api_key := node_data.apiKey
    let model_name := node_data.modelName.getD "gemini-2.5-flash"
    let temperature := node_data.temperature.getD (3 / 4 : ℚ)
    let prompt_input_query : Payload :=
      match current_data with
      | Payload.dict q _ => q
      | _ => current_data
    let prompt_input_context : String :=
      match current_data with
      | Payload.dict _ c => c
      | _ => ""
    let web_search_tool := node_data.webSearchTool.getD "None"
    let web_context :=
      if web_search_tool == "SerpAPI" then C.webSearch prompt_input_query else ""
    let prompt_template := node_data.prompt.getD default_prompt_template
    (pyFormat prompt_template
        [("query", prompt_input_query.pyStr),
         ("context", prompt_input_context),
         ("web_context", web_context)]).map
      (fun final_prompt =>
        Payload.str (C.llm final_prompt api_key model_name temperature))
  else if node_type == "output" then
    Except.ok current_data
  else
    Except.ok current_data

/-- The `while current_node_id:` loop of `run_workflow`, with explicit
fuel; `none` means the loop was still running after `fuel` iterations.
`nodes[current_node_id]` and `current_node['data']` raise `KeyError` when
absent; the loop exits when no edge leaves the current node, or when the
next target id is the empty string (Python falsy). -/
def runLoop (C : Collab) (stack_id : Int) (dict : List Node) (edges : List Edge)
    (query : String) : Nat → String → Payload → Option (Except PyExn Payload)
  | 0, _, _ => none
  | fuel + 1, current_node_id, current_data =>
    match dictLookup dict current_node_id with
    | none => some (Except.error (PyExn.keyError current_node_id))
    | some current_node =>
      match current_node.data with
      | none => some (Except.error (PyExn.keyError "data"))
      | some node_data =>
        match handleNode C stack_id query current_node.type node_data current_data with
        | Except.error e => some (Except.error e)
        | Except.ok new_data =>
          match edges.find? (fun e => e.source == current_node_id) with
          | none => some (Except.ok new_data)
          | some next_edge =>
            if next_edge.target == "" then some (Except.ok new_data)
            else runLoop C stack_id dict edges query fuel next_edge.target new_data

/-- The fixed sentinel returned when no start node is found. -/
def startSentinel : String :=
  "Error: A \x27UserQuery\x27 node must be the start of the workflow."

/-- `run_workflow(stack_id, workflow, query)` from backend/orchestrator.py.
The sentinel is returned when the start search leaves `current_node_id`
falsy — `None` (no qualifying node) or the empty string (the first
qualifying node's id is `""`), since the source tests `if not
current_node_id:`. -/
def run_workflow (C : Collab) (fuel : Nat) (stack_id : Int) (workflow : Workflow)
    (query : String) : Option (Except PyExn Payload) :=
  let nodes := buildDict workflow.nodes
  let edges := workflow.edges
  match findStartId nodes edges with
  | none => some (Except.ok (Payload.str startSentinel))
  | some i =>
      if i == "" then some (Except.ok (Payload.str startSentinel))
      else runLoop C stack_id nodes edges query fuel i (Payload.str query)

/-- A trivial collaborator assignment used for concrete counterexamples:
the retrieval oracle echoes the Python `str` of the payload it was handed,
the LLM echoes its prompt, web search returns the empty string. -/
def echoCollab : Collab where
  search := fun _ p _ _ => p.pyStr
  llm := fun prompt _ _ _ => prompt
  webSearch := fun _ => ""

/-! ### Formatting lemmas -/

/-- If a template only uses replacement fields whose names have entries in
the keyword list, formatting succeeds. -/
theorem fmtGo_ok_of_tmplOK (kw : List (String × String)) (keys : List String)
    (hkw : ∀ k, keys.contains k = true → (kw.find? (fun p => p.1 == k)).isSome = true)
    (cs : List Char) (st : FmtState) :
    tmplOK keys cs st = true → ∃ s, fmtGo kw cs st = Except.ok s := by
  induction cs, st using fmtGo.induct kw with
  | case1 => intro _; exact ⟨"", rfl⟩
  | case2 a => intro h; simp [tmplOK] at h
  | case3 => intro h; simp [tmplOK] at h
  | case4 rest ih =>
      intro h
      simp only [tmplOK, if_pos rfl] at h
      obtain ⟨s, hs⟩ := ih h
      exact ⟨s, by simp [fmtGo, hs]⟩
  | case5 rest hne ih =>
      intro h
      simp only [tmplOK, if_neg hne, if_pos rfl] at h
      obtain ⟨s, hs⟩ := ih h
      exact ⟨s, by simp [fmtGo, hne, hs]⟩
  | case6 c rest hc1 hc2 ih =>
      intro h
      simp only [tmplOK, if_neg hc1, if_neg hc2] at h
      obtain ⟨s, hs⟩ := ih h
      exact ⟨String.mk [c] ++ s, by simp [fmtGo, hc1, hc2, hs, Except.map]⟩
  | case7 rest ih =>
      intro h
      simp only [tmplOK, if_pos rfl] at h
      rw [if_true] at h
      obtain ⟨s, hs⟩ := ih h
      exact ⟨"\x7d" ++ s, by simp [fmtGo, hs, Except.map]⟩
  | case8 c rest hc =>
      intro h
      simp [tmplOK, hc] at h
  | case9 rest ih =>
      intro h
      simp [tmplOK] at h
      obtain ⟨s, hs⟩ := ih h
      exact ⟨"\x7b" ++ s, by simp [fmtGo, hs, Except.map]⟩
  | case10 rest acc hacc =>
      intro h
      simp [tmplOK, hacc] at h
  | case11 rest acc nm hnm hne =>
      intro h
      have hnm2 : (String.mk acc.reverse) = "" := hnm
      simp [tmplOK, hnm2] at h
  | case12 rest acc nm hnm p hfind hne ih =>
      intro h
      have hnm2 : ¬ (String.mk acc.reverse) = "" := hnm
      have hfind2 : List.find? (fun q => q.1 == String.mk acc.reverse) kw = some p := hfind
      simp [tmplOK, hnm2] at h
      obtain ⟨hmem, hrest⟩ := h
      obtain ⟨s, hs⟩ := ih hrest
      refine ⟨p.2 ++ s, ?_⟩
      simp [fmtGo, hnm2, hfind2, hs, Except.map]
  | case13 rest acc nm hnm hfind hne =>
      intro h
      have hnm2 : ¬ (String.mk acc.reverse) = "" := hnm
      have hfind2 : List.find? (fun q => q.1 == String.mk acc.reverse) kw = none := hfind
      simp [tmplOK, hnm2] at h
      obtain ⟨hmem, hrest⟩ := h
      have h2 := hkw (String.mk acc.reverse) (by simpa using hmem)
      rw [hfind2] at h2
      simp at h2
  | case14 c rest acc hc1 hc2 ih =>
      intro h
      simp only [tmplOK, if_neg hc1, if_neg hc2] at h
      obtain ⟨s, hs⟩ := ih h
      exact ⟨s, by simp [fmtGo, hc1, hc2, hs]⟩

/-- The three-slot keyword list of the orchestrator's `format` call has an
entry for each of the three slot names. -/
theorem find?_kw3 (vq vc vw : String) :
    ∀ k, (["query", "context", "web_context"] : List String).contains k = true →
      ((([("query", vq), ("context", vc), ("web_context", vw)] :
          List (String × String))).find? (fun p => p.1 == k)).isSome = true := by
  intro k hk
  have hk2 : k = "query" ∨ k = "context" ∨ k = "web_context" := by
    simpa using hk
  rcases hk2 with rfl | rfl | rfl <;> simp [List.find?]

/-- (C4, amended) Rendering an LLMEngine prompt template with the three
named slots succeeds whenever every replacement field of the template is
one of `query`, `context`, `web_context`; unused substitution values are
ignored (a template may omit any of the slots).  An unrecognized
placeholder instead raises `KeyError` (see the counterexample theorem):
`str.format` does not leave it unresolved. -/
theorem pyFormat_ok_of_tmplOK (t : String)
    (h : tmplOK ["query", "context", "web_context"] t.data FmtState.out = true)
    (vq vc vw : String) :
    ∃ s, pyFormat t [("query", vq), ("context", vc), ("web_context", vw)] = Except.ok s :=
  fmtGo_ok_of_tmplOK _ ["query", "context", "web_context"] (find?_kw3 vq vc vw) _ _ h

/-- (C4, witness) A template that uses only the `query` slot renders. -/
theorem pyFormat_ok_witness :
    ∃ s, pyFormat "Answer this: \x7bquery\x7d"
        [("query", "hi"), ("context", ""), ("web_context", "")] = Except.ok s :=
  pyFormat_ok_of_tmplOK "Answer this: \x7bquery\x7d" (by decide) "hi" "" ""

/-- An `Except.map` of an `ok` value is `ok`. -/
theorem exceptMap_ok {r : Except PyExn String} (f : String → Payload)
    (h : ∃ s, r = Except.ok s) : ∃ v, r.map f = Except.ok v := by
  obtain ⟨s, rfl⟩ := h
  exact ⟨f s, rfl⟩

/-- Every branch of the handler dispatch returns a value, provided an
LLMEngine node's template only uses the three provided slots; in
particular the non-LLM branches can never raise. -/
theorem handleNode_ok (C : Collab) (stack_id : Int) (query : String)
    (node_type : String) (node_data : NodeData) (current_data : Payload)
    (hp : node_type = "llmEngine" →
      tmplOK ["query", "context", "web_context"]
        (node_data.prompt.getD default_prompt_template).data FmtState.out = true) :
    ∃ v, handleNode C stack_id query node_type node_data current_data = Except.ok v := by
  by_cases h1 : node_type = "userQuery"
  · exact ⟨Payload.str query, by simp [handleNode, h1]⟩
  · by_cases h2 : node_type = "knowledgeBase"
    · exact ⟨Payload.dict current_data
        (C.search stack_id current_data
          (node_data.embeddingModel.getD "models/embedding-001")
          node_data.embeddingApiKey),
        by simp [handleNode, h1, h2]⟩
    · by_cases h3 : node_type = "llmEngine"
      · simp only [handleNode, h1, h2, h3]
        simp only [beq_iff_eq, if_true, if_false, reduceCtorEq, ite_false, ite_true]
        apply exceptMap_ok
        exact fmtGo_ok_of_tmplOK _ ["query", "context", "web_context"]
          (find?_kw3 _ _ _) _ _ (hp h3)
      · by_cases h4 : node_type = "output"
        · exact ⟨current_data, by simp [handleNode, h1, h2, h3, h4]⟩
        · exact ⟨current_data, by simp [handleNode, h1, h2, h3, h4]⟩

/-! ### Concrete graphs used by the executor claims -/

/-- The spec's example pair graph `userQuery -> output`, with (empty)
`data` mappings present as produced by the authoring surface. -/
def pairGraph : Workflow :=
  ⟨[⟨"1", "userQuery", some {}⟩, ⟨"2", "output", some {}⟩], [⟨"1", "2"⟩]⟩

/-- A chain `userQuery -> knowledgeBase -> knowledgeBase`: the second
KnowledgeBase node receives a structured payload. -/
def kbChainGraph : Workflow :=
  ⟨[⟨"1", "userQuery", some {}⟩, ⟨"2", "knowledgeBase", some {}⟩,
    ⟨"3", "knowledgeBase", some {}⟩],
   [⟨"1", "2"⟩, ⟨"2", "3"⟩]⟩

/-- `userQuery -> llmEngine` where the LLMEngine node carries a custom
prompt template with an unrecognized placeholder. -/
def badPromptGraph : Workflow :=
  ⟨[⟨"1", "userQuery", some {}⟩, ⟨"2", "llmEngine", some { prompt := some "\x7bfoo\x7d" }⟩],
   [⟨"1", "2"⟩]⟩

/-- A single `userQuery` node whose id is the empty string (Python falsy). -/
def emptyIdGraph : Workflow := ⟨[⟨"", "userQuery", some {}⟩], []⟩

/-- A graph with a dangling edge: the edge's target names no node. -/
def danglingEdgeGraph : Workflow := ⟨[⟨"1", "userQuery", some {}⟩], [⟨"1", "2"⟩]⟩

/-! ### Executor claims: concrete runs -/

/-- (C1, counterexample) Handed an invalid graph whose edge target names a
non-existent node id, `run_workflow` raises `KeyError` (`nodes[...]` on a
missing key) instead of returning a value. -/
theorem run_workflow_keyerror_on_dangling_edge :
    run_workflow echoCollab 5 0 danglingEdgeGraph "hello"
      = some (Except.error (PyExn.keyError "2")) := rfl

/-- (C8) Executing the two-node graph `userQuery -> output` returns the
query unchanged, for every query string, every collaborator assignment and
any sufficient fuel: the UserQuery handler resets the payload to the
query and the Output handler passes it through. -/
theorem run_pair_graph_id (C : Collab) (sid : Int) (fuel : Nat) (q : String) :
    run_workflow C (fuel + 2) sid pairGraph q = some (Except.ok (Payload.str q)) := rfl

/-- (C3, counterexample) On the chain `userQuery -> knowledgeBase ->
knowledgeBase` with the echoing retrieval oracle, the second KnowledgeBase
dispatch does not produce `\x7bquery: "hello", context: ...\x7d` as the claim
predicts: it stores the whole previous structured payload in the `query`
field and hands that whole payload (rendered as a Python dict) to the
retrieval collaborator. -/
theorem kb_handler_passes_whole_payload :
    run_workflow echoCollab 3 0 kbChainGraph "hello"
        ≠ some (Except.ok (Payload.dict (Payload.str "hello") "hello"))
    ∧ run_workflow echoCollab 3 0 kbChainGraph "hello"
        = some (Except.ok (Payload.dict
            (Payload.dict (Payload.str "hello") "hello")
            "\x7b\x27query\x27: \x27hello\x27, \x27context\x27: \x27hello\x27\x7d")) :=
  ⟨by decide, rfl⟩

/-- (C3, amended) When the current payload is the structured pair, the
KnowledgeBase handler passes the entire payload (not the text of its
`query` field) to `EmbeddingSearch`, and produces the pair whose `query`
field is the entire previous payload and whose `context` field is the
retrieved text — shown here on the two-retrieval chain for every
collaborator assignment, stack id and query. -/
theorem run_kb_chain (C : Collab) (sid : Int) (fuel : Nat) (q : String) :
    run_workflow C (fuel + 3) sid kbChainGraph q
      = some (Except.ok (Payload.dict
          (Payload.dict (Payload.str q)
            (C.search sid (Payload.str q) "models/embedding-001" none))
          (C.search sid
            (Payload.dict (Payload.str q)
              (C.search sid (Payload.str q) "models/embedding-001" none))
            "models/embedding-001" none))) := rfl

/-- (C4, counterexample) A custom LLMEngine prompt template containing an
unrecognized placeholder `\x7bfoo\x7d` is not tolerated: rendering raises
`KeyError`, which escapes `run_workflow`. -/
theorem llm_unknown_placeholder_raises :
    run_workflow echoCollab 2 0 badPromptGraph "hi"
      = some (Except.error (PyExn.keyError "foo")) := rfl

/-- (C5, counterexample) A graph that does contain a `userQuery` node that
is no edge's target still yields the sentinel when that node's id is the
empty string, because the source tests Python truthiness
(`if not current_node_id`) rather than `is None`. -/
theorem sentinel_despite_start_node :
    run_workflow echoCollab 5 0 emptyIdGraph "q"
        = some (Except.ok (Payload.str startSentinel))
    ∧ emptyIdGraph.nodes.any
        (fun n => n.type == "userQuery"
          && ! emptyIdGraph.edges.any (fun e => e.target == n.id)) = true :=
  ⟨rfl, rfl⟩

/-! ### Node-dict lemmas -/

/-- Everything in `insertNode m n` is in `m` or is `n` itself. -/
theorem mem_insertNode {x : Node} {m : List Node} {n : Node}
    (h : x ∈ insertNode m n) : x ∈ m ∨ x = n := by
  unfold insertNode at h
  by_cases hc : m.any (fun y => y.id == n.id) = true
  · rw [if_pos hc] at h
    obtain ⟨y, hy, hxy⟩ := List.mem_map.mp h
    by_cases hyid : (y.id == n.id) = true
    · rw [if_pos hyid] at hxy
      exact Or.inr hxy.symm
    · rw [if_neg hyid] at hxy
      exact Or.inl (hxy ▸ hy)
  · rw [if_neg hc] at h
    rcases List.mem_append.mp h with h1 | h1
    · exact Or.inl h1
    · exact Or.inr (List.mem_singleton.mp h1)

theorem mem_foldl_insertNode :
    ∀ (ns acc : List Node) (x : Node), x ∈ ns.foldl insertNode acc → x ∈ acc ∨ x ∈ ns := by
  intro ns
  induction ns with
  | nil => intro acc x h; exact Or.inl h
  | cons n tl ih =>
      intro acc x h
      rcases ih (insertNode acc n) x h with h1 | h1
      · rcases mem_insertNode h1 with h2 | h2
        · exact Or.inl h2
        · exact Or.inr (by simp [h2])
      · exact Or.inr (List.mem_cons_of_mem _ h1)

/-- The node dict only holds nodes of the original node list. -/
theorem mem_buildDict {x : Node} {ns : List Node} (h : x ∈ buildDict ns) : x ∈ ns := by
  rcases mem_foldl_insertNode ns [] x h with h1 | h1
  · simp at h1
  · exact h1

/-! ### The executor never raises on well-formed graphs -/

/-- The executor loop returns a value (never an error) when every edge
target resolves in the node dict, every node carries a `data` mapping, and
every LLMEngine node's prompt template only uses the three provided
slots. -/
theorem runLoop_no_error (C : Collab) (sid : Int) (dict : List Node) (edges : List Edge)
    (q : String)
    (hclosed : ∀ e ∈ edges, (dict.any (fun n => n.id == e.target)) = true)
    (hdata : ∀ n ∈ dict, n.data.isSome = true)
    (hprompt : ∀ n ∈ dict, n.type = "llmEngine" →
        tmplOK ["query", "context", "web_context"]
          ((n.data.getD {}).prompt.getD default_prompt_template).data FmtState.out = true) :
    ∀ (fuel : Nat) (i : String), (dictLookup dict i).isSome = true →
      ∀ (p : Payload) (e : PyExn),
        runLoop C sid dict edges q fuel i p ≠ some (Except.error e) := by
  intro fuel
  induction fuel with
  | zero => intro i hi p e; simp [runLoop]
  | succ fuel ih =>
      intro i hi p e
      obtain ⟨node, hnode⟩ := Option.isSome_iff_exists.mp hi
      have hnode' : List.find? (fun n => n.id == i) dict = some node := hnode
      have hmem : node ∈ dict := List.mem_of_find?_eq_some hnode'
      obtain ⟨nd, hnd⟩ := Option.isSome_iff_exists.mp (hdata node hmem)
      obtain ⟨v, hv⟩ := handleNode_ok C sid q node.type nd p
        (fun h3 => by simpa [hnd] using hprompt node hmem h3)
      simp only [runLoop, hnode, hnd, hv]
      cases hfind : edges.find? (fun e2 => e2.source == i) with
      | none => simp
      | some e2 =>
          by_cases htgt : (e2.target == "") = true
          · simp [htgt]
          · have htgt' : (e2.target == "") = false := by
              rwa [Bool.not_eq_true] at htgt
            simp only [htgt', if_false, Bool.false_eq_true]
            apply ih
            have hmem2 : e2 ∈ edges := List.mem_of_find?_eq_some hfind
            have hany := hclosed e2 hmem2
            rw [List.any_eq_true] at hany
            obtain ⟨n2, hn2mem, hn2⟩ := hany
            exact List.find?_isSome.mpr ⟨n2, hn2mem, hn2⟩

/-- (C1, amended) `run_workflow` never raises provided the graph is
well-formed in the three respects the counterexamples isolate: every edge
target names an existing node, every node carries a `data` mapping, and
every LLMEngine node's custom prompt template (if any) only uses the
`query`/`context`/`web_context` slots.  On such graphs, for every fuel,
query and collaborator assignment, the result is never an exception (a
cyclic graph can still fail to terminate, which the fuel models
separately). -/
theorem run_workflow_no_raise (w : Workflow) (C : Collab) (fuel : Nat) (sid : Int)
    (q : String)
    (hclosed : ∀ e ∈ w.edges, ((buildDict w.nodes).any (fun n => n.id == e.target)) = true)
    (hdata : ∀ n ∈ buildDict w.nodes, n.data.isSome = true)
    (hprompt : ∀ n ∈ buildDict w.nodes, n.type = "llmEngine" →
        tmplOK ["query", "context", "web_context"]
          ((n.data.getD {}).prompt.getD default_prompt_template).data FmtState.out = true)
    (e : PyExn) :
    run_workflow C fuel sid w q ≠ some (Except.error e) := by
  cases hf : findStartId (buildDict w.nodes) w.edges with
  | none => simp [run_workflow, hf]
  | some i =>
      by_cases hi : (i == "") = true
      · simp [run_workflow, hf, hi]
      · have hi' : (i == "") = false := by rwa [Bool.not_eq_true] at hi
        have hlook : (dictLookup (buildDict w.nodes) i).isSome = true := by
          unfold findStartId at hf
          obtain ⟨n, hn, hni⟩ := Option.map_eq_some'.mp hf
          have hmem : n ∈ buildDict w.nodes := List.mem_of_find?_eq_some hn
          subst hni
          exact List.find?_isSome.mpr ⟨n, hmem, by simp⟩
        simp only [run_workflow, hf, hi', Bool.false_eq_true, if_false]
        exact runLoop_no_error C sid (buildDict w.nodes) w.edges q
          hclosed hdata hprompt fuel i hlook (Payload.str q) e

/-- (C1, witness) The no-raise theorem applied to the well-formed pair
graph. -/
theorem run_workflow_no_raise_witness :
    run_workflow echoCollab 5 0 pairGraph "hello" ≠ some (Except.error PyExn.indexError) :=
  run_workflow_no_raise pairGraph echoCollab 5 0 "hello"
    (by decide) (by decide) (by decide) PyExn.indexError

/-! ### The sentinel characterization -/

/-- (C5, amended) `run_workflow` returns the fixed sentinel string,
invoking no node handler or collaborator, exactly when the start search
leaves `current_node_id` falsy.  The three conjuncts: (1) a falsy start —
no `userQuery` node without an incoming edge in the node dict, or the
first one found has the empty string as id — yields the sentinel, with a
conclusion independent of the collaborators, fuel, stack id and query, so
nothing is invoked; (2) conversely, a truthy start makes `run_workflow`
proceed into the dispatch loop from exactly the found start id, so the
sentinel is never produced without dispatching handlers; (3) whenever the
raw node list has no qualifying `userQuery` node (the claim's condition),
the start is indeed falsy and the sentinel results. -/
theorem run_workflow_sentinel (w : Workflow) (C : Collab) (fuel : Nat) (sid : Int)
    (q : String) :
    ((findStartId (buildDict w.nodes) w.edges).getD "" = "" →
      run_workflow C fuel sid w q = some (Except.ok (Payload.str startSentinel)))
    ∧ ((findStartId (buildDict w.nodes) w.edges).getD "" ≠ "" →
      run_workflow C fuel sid w q
        = runLoop C sid (buildDict w.nodes) w.edges q fuel
            ((findStartId (buildDict w.nodes) w.edges).getD "") (Payload.str q))
    ∧ ((∀ n ∈ w.nodes,
          (n.type == "userQuery" && ! w.edges.any (fun e => e.target == n.id)) = false) →
      run_workflow C fuel sid w q = some (Except.ok (Payload.str startSentinel))) := by
  refine ⟨?_, ?_, ?_⟩
  · intro h
    cases hf : findStartId (buildDict w.nodes) w.edges with
    | none => simp [run_workflow, hf]
    | some i =>
        rw [hf] at h
        simp only [Option.getD_some] at h
        simp [run_workflow, hf, h]
  · intro h
    cases hf : findStartId (buildDict w.nodes) w.edges with
    | none => rw [hf] at h; simp at h
    | some i =>
        rw [hf] at h
        simp only [Option.getD_some] at h
        have hi : (i == "") = false := by
          rw [beq_eq_false_iff_ne]
          exact h
        simp only [Option.getD_some]
        simp [run_workflow, hf, hi]
  · intro h
    have hf : findStartId (buildDict w.nodes) w.edges = none := by
      unfold findStartId
      rw [Option.map_eq_none']
      rw [List.find?_eq_none]
      intro n hn
      simp [h n (mem_buildDict hn)]
    simp [run_workflow, hf]

/-- (C5, witness) A graph with no userQuery node at all yields the
sentinel. -/
theorem run_workflow_sentinel_witness :
    run_workflow echoCollab 5 0 ⟨[⟨"1", "output", some {}⟩], []⟩ "q"
      = some (Except.ok (Payload.str startSentinel)) :=
  (run_workflow_sentinel ⟨[⟨"1", "output", some {}⟩], []⟩ echoCollab 5 0 "q").2.2 (by decide)

/-! ### Unknown node kinds are passthrough -/

/-- (C9) Dispatching a node whose type is none of the four known kinds
leaves the current payload unchanged (the `if/elif` chain falls through),
and execution then continues along the first edge whose source matches the
node's id (terminating if there is none, or if the next target id is
falsy). -/
theorem unknown_type_passthrough (C : Collab) (sid : Int) (dict : List Node)
    (edges : List Edge) (q : String) (fuel : Nat) (i : String) (p : Payload)
    (node : Node) (nd : NodeData)
    (hlook : dictLookup dict i = some node) (hd : node.data = some nd)
    (ht : node.type ∉ (["userQuery", "knowledgeBase", "llmEngine", "output"] : List String)) :
    runLoop C sid dict edges q (fuel + 1) i p
      = match edges.find? (fun e => e.source == i) with
        | none => some (Except.ok p)
        | some e2 =>
            if e2.target == "" then some (Except.ok p)
            else runLoop C sid dict edges q fuel e2.target p := by
  have h1 : node.type ≠ "userQuery" := fun hh => ht (by simp [hh])
  have h2 : node.type ≠ "knowledgeBase" := fun hh => ht (by simp [hh])
  have h3 : node.type ≠ "llmEngine" := fun hh => ht (by simp [hh])
  have h4 : node.type ≠ "output" := fun hh => ht (by simp [hh])
  have hh : handleNode C sid q node.type nd p = Except.ok p := by
    simp [handleNode, h1, h2, h3, h4]
  simp only [runLoop, hlook, hd, hh]

/-- (C9, witness) A node of type `fooBar` is a passthrough step. -/
theorem unknown_type_passthrough_witness :
    runLoop echoCollab 0 [⟨"1", "fooBar", some {}⟩] [⟨"1", "2"⟩] "q" 1 "1" (Payload.str "q")
      = match ([⟨"1", "2"⟩] : List Edge).find? (fun e => e.source == "1") with
        | none => some (Except.ok (Payload.str "q"))
        | some e2 =>
            if e2.target == "" then some (Except.ok (Payload.str "q"))
            else runLoop echoCollab 0 [⟨"1", "fooBar", some {}⟩] [⟨"1", "2"⟩] "q" 0
              e2.target (Payload.str "q") :=
  unknown_type_passthrough echoCollab 0 [⟨"1", "fooBar", some {}⟩] [⟨"1", "2"⟩] "q" 0 "1"
    (Payload.str "q") ⟨"1", "fooBar", some {}⟩ {} rfl rfl (by decide)

/-! ### Termination on acyclic graphs -/

/-- The step relation of the edge list: `i` steps to `j` when some edge
has source `i` and target `j`. -/
def stepRel (edges : List Edge) (i j : String) : Prop :=
  ∃ e ∈ edges, e.source = i ∧ e.target = j

/-- All ids mentioned by edges. -/
def edgeIds (edges : List Edge) : Finset String :=
  (edges.map Edge.source).toFinset ∪ (edges.map Edge.target).toFinset

theorem stepRel_nil (i j : String) : ¬ stepRel [] i j := by
  simp [stepRel]

theorem transGen_stepRel_nil (v w' : String) :
    ¬ Relation.TransGen (stepRel []) v w' := by
  intro h
  cases h with
  | single h1 => exact stepRel_nil _ _ h1
  | tail h1 h2 => exact stepRel_nil _ _ h2

/-- If no cycle of the edge relation is reachable from `s`, the executor
loop halts from any node reachable from `s` within `|edgeIds| + 1`
iterations: the walk can never revisit a node, so it visits each involved
id at most once. -/
theorem runLoop_terminates (C : Collab) (sid : Int) (dict : List Node) (edges : List Edge)
    (q : String) (s : String)
    (hacy : ∀ v, Relation.ReflTransGen (stepRel edges) s v →
      ¬ Relation.TransGen (stepRel edges) v v)
    (i : String) (hreach : Relation.ReflTransGen (stepRel edges) s i) (p : Payload) :
    (runLoop C sid dict edges q ((edgeIds edges).card + 1) i p).isSome = true := by
  classical
  suffices key : ∀ (n : Nat) (j : String) (p2 : Payload),
      Relation.ReflTransGen (stepRel edges) s j →
      ((edgeIds edges).filter (fun v => Relation.ReflTransGen (stepRel edges) j v)).card ≤ n →
      (runLoop C sid dict edges q (n + 1) j p2).isSome = true by
    exact key _ i p hreach (Finset.card_filter_le _ _)
  intro n
  induction n using Nat.strong_induction_on with
  | _ n ih =>
    intro j p2 hreach2 hcard
    cases hlook : dictLookup dict j with
    | none => simp [runLoop, hlook]
    | some node =>
      cases hd : node.data with
      | none => simp [runLoop, hlook, hd]
      | some nd =>
        cases hh : handleNode C sid q node.type nd p2 with
        | error e => simp [runLoop, hlook, hd, hh]
        | ok v =>
          cases hfind : edges.find? (fun e => e.source == j) with
          | none => simp [runLoop, hlook, hd, hh, hfind]
          | some e2 =>
            by_cases htgt : (e2.target == "") = true
            · simp [runLoop, hlook, hd, hh, hfind, htgt]
            · have htgt' : (e2.target == "") = false := by
                rwa [Bool.not_eq_true] at htgt
              simp only [runLoop, hlook, hd, hh, hfind, htgt', Bool.false_eq_true, if_false]
              have hmem : e2 ∈ edges := List.mem_of_find?_eq_some hfind
              have hsrc : e2.source = j := by
                have := List.find?_some hfind
                simpa using this
              have hstep : stepRel edges j e2.target := ⟨e2, hmem, hsrc, rfl⟩
              have hreach3 : Relation.ReflTransGen (stepRel edges) s e2.target :=
                hreach2.tail hstep
              have hjU : j ∈ edgeIds edges := by
                simp only [edgeIds, Finset.mem_union, List.mem_toFinset, List.mem_map]
                exact Or.inl ⟨e2, hmem, hsrc⟩
              have hsub :
                  (edgeIds edges).filter
                      (fun v => Relation.ReflTransGen (stepRel edges) e2.target v)
                    ⊆ (edgeIds edges).filter
                      (fun v => Relation.ReflTransGen (stepRel edges) j v) := by
                intro v hv
                rw [Finset.mem_filter] at hv
                rw [Finset.mem_filter]
                exact ⟨hv.1, Relation.ReflTransGen.head hstep hv.2⟩
              have hnotin : j ∉ (edgeIds edges).filter
                  (fun v => Relation.ReflTransGen (stepRel edges) e2.target v) := by
                rw [Finset.mem_filter]
                rintro ⟨-, hback⟩
                exact hacy j hreach2 (Relation.TransGen.head' hstep hback)
              have hin : j ∈ (edgeIds edges).filter
                  (fun v => Relation.ReflTransGen (stepRel edges) j v) :=
                Finset.mem_filter.mpr ⟨hjU, Relation.ReflTransGen.refl⟩
              have hlt :
                  ((edgeIds edges).filter
                      (fun v => Relation.ReflTransGen (stepRel edges) e2.target v)).card
                    < ((edgeIds edges).filter
                      (fun v => Relation.ReflTransGen (stepRel edges) j v)).card :=
                Finset.card_lt_card ((Finset.ssubset_iff_of_subset hsub).mpr ⟨j, hin, hnotin⟩)
              obtain ⟨m, rfl⟩ : ∃ m, n = m + 1 := ⟨n - 1, by omega⟩
              exact ih m (by omega) e2.target v hreach3 (by omega)

/-- (C10) For every workflow graph whose edge relation has no cycle
reachable from the start node the executor settles on, execution
terminates: `|edgeIds| + 1` loop iterations are enough to reach a result,
so each node on the followed path is dispatched at most once. -/
theorem run_workflow_terminates (w : Workflow) (C : Collab) (sid : Int) (q : String)
    (hacy : ∀ i, findStartId (buildDict w.nodes) w.edges = some i →
        ∀ v, Relation.ReflTransGen (stepRel w.edges) i v →
          ¬ Relation.TransGen (stepRel w.edges) v v) :
    (run_workflow C ((edgeIds w.edges).card + 1) sid w q).isSome = true := by
  cases hf : findStartId (buildDict w.nodes) w.edges with
  | none => simp [run_workflow, hf]
  | some i =>
      by_cases hi : (i == "") = true
      · simp [run_workflow, hf, hi]
      · have hi' : (i == "") = false := by rwa [Bool.not_eq_true] at hi
        simp only [run_workflow, hf, hi', Bool.false_eq_true, if_false]
        exact runLoop_terminates C sid (buildDict w.nodes) w.edges q i (hacy i hf)
          i Relation.ReflTransGen.refl (Payload.str q)

/-- (C10, witness) The one-node graph with no edges terminates. -/
theorem run_workflow_terminates_witness :
    (run_workflow echoCollab ((edgeIds ([] : List Edge)).card + 1) 0
        ⟨[⟨"1", "userQuery", some {}⟩], []⟩ "q").isSome = true :=
  run_workflow_terminates ⟨[⟨"1", "userQuery", some {}⟩], []⟩ echoCollab 0 "q"
    (fun _ _ v _ ht => absurd ht (transGen_stepRel_nil v v))

end FlowStack
